import Mathlib

/-!
Shallow embedding of `generate_ngo_data.py`, a pandas-based generator of
synthetic CSV fixture files.  Tables are modelled as ordered lists of named
columns of cells; numpy/pandas dtype inference and `to_csv` serialization
(QUOTE_MINIMAL, `index=False`, trailing newline) are modelled explicitly,
together with a plain CSV field parser used to state round-trip properties.
Randomness (`np.random.choice`, `np.random.randint`) is modelled by
arbitrary draw functions reduced modulo the size of the sampled domain, so
every theorem about the two procedural tables quantifies over all draws.
-/

namespace NgoGen

set_option maxRecDepth 20000

/-- A single cell of a table: integer, string, nonnegative decimal
(numerator and number of decimal places, modelling the float literals of the
source), date (absolute day number), or the missing-value marker `np.nan`. -/
inductive Cell where
  | i (n : Int)
  | s (v : String)
  | f (num dp : Nat)
  | d (day : Nat)
  | na
  deriving DecidableEq, Repr

/-- A pandas DataFrame: an ordered list of (column name, cells) pairs. -/
structure DataFrame where
  cols : List (String × List Cell)
  deriving DecidableEq, Repr

/-- Number of rows: the length of the first column (all columns of the
generated tables have equal length by construction). -/
def nrows (df : DataFrame) : Nat :=
  (df.cols.head?.map (fun c => c.2.length)).getD 0

/-- Column access by name (`df['C']`). -/
def getCol? (df : DataFrame) (name : String) : Option (List Cell) :=
  List.lookup name df.cols

/-- Cell access by column name and row index. -/
def getCell (df : DataFrame) (name : String) (i : Nat) : Option Cell :=
  (getCol? df name).bind (fun l => l[i]?)

/-- Column assignment `df['C'] = vals` for an existing column `C`. -/
def setCol (df : DataFrame) (name : String) (vals : List Cell) : DataFrame :=
  ⟨df.cols.map (fun c => if c.1 = name then (c.1, vals) else c)⟩

/-- Boolean row mask `df['C'] == v`. -/
def colEqMask (df : DataFrame) (name : String) (v : Cell) : List Bool :=
  ((getCol? df name).getD []).map (fun c => c = v)

/-- `df.loc[mask, 'C'] = v`: overwrite the cells of column `C` at the rows
selected by the mask. -/
def locSet (df : DataFrame) (mask : List Bool) (name : String) (v : Cell) :
    DataFrame :=
  ⟨df.cols.map (fun c =>
    if c.1 = name then
      (c.1, (c.2.zip (mask ++ List.replicate c.2.length false)).map
        (fun p => if p.2 then v else p.1))
    else c)⟩

/-- `np.random.choice(l, ...)` at position `i`: an arbitrary draw function
`g` reduced modulo the size of the vocabulary, so the result is always an
element of `l`. -/
def npChoice (l : List α) (dflt : α) (g : Nat → Nat) (i : Nat) : α :=
  l.getD (g i % l.length) dflt

/-- `np.random.randint(lo, hi, ...)` at position `i`: an arbitrary draw
reduced into the half-open interval `[lo, hi)`. -/
def npRandint (lo hi : Nat) (g : Nat → Nat) (i : Nat) : Nat :=
  lo + g i % (hi - lo)

/-- `np.arange(lo, hi)` over integers. -/
def npArange (lo hi : Int) : List Int :=
  (List.range (hi - lo).toNat).map (fun (k : Nat) => lo + (k : Int))

section Dates

/-- Absolute day number of a proleptic-Gregorian civil date (days since
0000-03-01), the standard days-from-civil algorithm restricted to CE dates. -/
def daysFromCivil (y m d : Nat) : Nat :=
  let y := if m ≤ 2 then y - 1 else y
  let era := y / 400
  let yoe := y % 400
  let mp := (m + 9) % 12
  let doy := (153 * mp + 2) / 5 + d - 1
  let doe := yoe * 365 + yoe / 4 - yoe / 100 + doy
  era * 146097 + doe

/-- Inverse of `daysFromCivil`: (year, month, day) of an absolute day. -/
def civilFromDays (z : Nat) : Nat × Nat × Nat :=
  let era := z / 146097
  let doe := z % 146097
  let yoe := (doe - doe / 1460 + doe / 36524 - doe / 146096) / 365
  let y := yoe + era * 400
  let doy := doe - (365 * yoe + yoe / 4 - yoe / 100)
  let mp := (5 * doy + 2) / 153
  let dd := doy - (153 * mp + 2) / 5 + 1
  let mm := if mp < 10 then mp + 3 else mp - 9
  (if mm ≤ 2 then y + 1 else y, mm, dd)

/-- Zero-padded two-digit rendering of a month or day number. -/
def pad2 (n : Nat) : String :=
  if n < 10 then "0" ++ toString n else toString n

/-- ISO rendering (`YYYY-MM-DD`) of an absolute day number, the form pandas
uses when serializing midnight datetimes. -/
def isoOfDay (z : Nat) : String :=
  let c := civilFromDays z
  toString c.1 ++ "-" ++ pad2 c.2.1 ++ "-" ++ pad2 c.2.2

end Dates

section Csv

/-- The numpy/pandas dtype inferred for a column built from a python list:
any string makes it `object`; otherwise any datetime makes it
`datetime64`; otherwise any float or `nan` makes it `float64`; otherwise
`int64`. -/
inductive Dtype where
  | int64 | float64 | obj | dt64
  deriving DecidableEq, Repr

/-- Dtype inference over the cells of one column. -/
def colDtype (cells : List Cell) : Dtype :=
  if cells.any (fun c => match c with | .s _ => true | _ => false) then .obj
  else if cells.any (fun c => match c with | .d _ => true | _ => false) then .dt64
  else if cells.any (fun c => match c with | .f _ _ => true | .na => true | _ => false) then
    .float64
  else .int64

/-- Decimal digit string of a natural number. -/
def natRepr (n : Nat) : String := toString n

/-- Decimal rendering of an integer. -/
def intRepr (n : Int) : String := toString n

/-- Shortest-decimal rendering of a nonnegative decimal `num / 10^dp`,
matching the float `repr` pandas uses (`0.10` prints as `0.1`, `1.0` as
`1.0`). -/
def fltRepr (num dp : Nat) : String :=
  let ip := num / 10 ^ dp
  let frRaw := natRepr (num % 10 ^ dp)
  let frPadded := String.mk (List.replicate (dp - frRaw.length) '0') ++ frRaw
  let fr := String.mk ((frPadded.data.reverse.dropWhile (fun c => c = '0')).reverse)
  if fr = "" then natRepr ip ++ ".0" else natRepr ip ++ "." ++ fr

/-- The text pandas `to_csv` emits for one cell, before CSV quoting, given
the dtype of its column: missing values are empty fields; integers in a
`float64` column print with a trailing `.0`. -/
def renderCell (dt : Dtype) : Cell → String
  | .na => ""
  | .i n => match dt with
      | .float64 => intRepr n ++ ".0"
      | _ => intRepr n
  | .s v => v
  | .f num dp => fltRepr num dp
  | .d day => isoOfDay day

/-- A field needs CSV quoting iff it contains the delimiter, the quote
character or a line break (QUOTE_MINIMAL). -/
def needsQuote (s : String) : Bool :=
  s.data.any (fun c => c = ',' || c = '"' || c = '\n' || c = '\r')

/-- Double every quote character of a field body. -/
def escapeQuotes (s : String) : String :=
  String.mk (s.data.foldr (fun c acc => if c = '"' then '"' :: '"' :: acc else c :: acc) [])

/-- QUOTE_MINIMAL quoting of one field. -/
def quoteField (s : String) : String :=
  if needsQuote s then "\"" ++ escapeQuotes s ++ "\"" else s

/-- Join a list of strings with a separator. -/
def joinWith (sep : String) : List String → String
  | [] => ""
  | [x] => x
  | x :: y :: xs => x ++ sep ++ joinWith sep (y :: xs)

/-- The header line of `df.to_csv(index=False)`: the column names in the
table's defined order, comma-joined, with no index column. -/
def headerLine (df : DataFrame) : String :=
  joinWith "," (df.cols.map (fun c => c.1))

/-- One serialized data row. -/
def csvRow (df : DataFrame) (r : Nat) : String :=
  joinWith "," (df.cols.map (fun c => quoteField (renderCell (colDtype c.2) (c.2.getD r .na))))

/-- `df.to_csv(name, index=False)`: header line, then one line per row,
each line (header included) terminated by a newline. -/
def toCsv (df : DataFrame) : String :=
  headerLine df ++ "\n" ++
    String.join (((List.range (nrows df)).map (fun r => csvRow df r ++ "\n")))

/-- State of the CSV field scanner. -/
structure CsvSt where
  inQ : Bool
  field : String
  row : List String
  rows : List (List String)

/-- One step of the CSV scanner over QUOTE_MINIMAL output whose fields
contain no quote characters: quotes toggle quoted mode, commas and
newlines outside quotes delimit fields and records. -/
def csvStep (st : CsvSt) (c : Char) : CsvSt :=
  if st.inQ then
    if c = '"' then { st with inQ := false }
    else { st with field := st.field.push c }
  else
    if c = '"' then { st with inQ := true }
    else if c = ',' then { st with field := "", row := st.row ++ [st.field] }
    else if c = '\n' then
      { st with field := "", row := [], rows := st.rows ++ [st.row ++ [st.field]] }
    else { st with field := st.field.push c }

/-- Parse a CSV text back into its grid of raw field strings. -/
def parseCsv (s : String) : List (List String) :=
  let st := s.data.foldl csvStep ⟨false, "", [], []⟩
  if st.field = "" && st.row.isEmpty then st.rows
  else st.rows ++ [st.row ++ [st.field]]

/-- First line of a file: the characters before the first newline. -/
def firstLine (s : String) : String :=
  String.mk (s.data.takeWhile (fun c => c != '\n'))

/-- A field is numeric-or-empty: empty, or a decimal numeral with at most
one decimal point and at least one digit. -/
def numericOrEmpty (s : String) : Bool :=
  s = "" ||
    (s.data.all (fun c => c.isDigit || c = '.') &&
      (s.data.filter (fun c => c = '.')).length ≤ 1 &&
      s.data.any (fun c => c.isDigit))

end Csv

section Tables

/-- A column of integer cells. -/
def ints (l : List Int) : List Cell := l.map Cell.i

/-- A column of string cells. -/
def strs (l : List String) : List Cell := l.map Cell.s

/-- `ngo_projects.csv`. -/
def df_projects : DataFrame := ⟨[
  ("ProjectID", ints [101, 102, 103, 104, 105]),
  ("Region", strs ["East Africa", "South Asia", "West Africa", "East Africa", "South Asia"]),
  ("StartDate", strs ["2023-01-15", "2023-02-01", "2023-03-10", "2023-04-05", "2023-05-20"]),
  ("EndDate", strs ["2023-06-30", "2023-07-15", "2023-08-20", "2023-09-10", "2023-10-30"]),
  ("Budget", ints [150000, 200000, 120000, 180000, 250000])]⟩

/-- `beneficiary_data.csv`. -/
def df_beneficiary_basic : DataFrame := ⟨[
  ("BeneficiaryID", ints [1, 2, 3, 4, 5]),
  ("Age", ints [25, 34, 28, 40, 30]),
  ("Gender", strs ["Female", "Male", "Female", "Male", "Female"]),
  ("Location", strs ["Camp A", "Village B", "Camp A", "Village C", "Camp B"]),
  ("AssistanceType", strs ["Food", "Shelter", "Medical", "Food", "Shelter"])]⟩

/-- `beneficiary_data_missing.csv`. -/
def df_missing : DataFrame := ⟨[
  ("BeneficiaryID", ints [1, 2, 3, 4, 5, 6, 7]),
  ("Age", [.i 25, .i 34, .na, .i 45, .i 19, .na, .i 50]),
  ("Gender", strs ["Female", "Male", "Female", "Male", "Female", "Male", "Female"]),
  ("Location", strs ["Camp A", "Village B", "Camp A", "Village C", "Camp B", "Village B", "Camp A"]),
  ("AssistanceType", [.s "Food", .s "Shelter", .na, .s "Food", .s "Medical", .s "Shelter", .s "Food"])]⟩

/-- `project_updates.csv`. -/
def df_project_updates : DataFrame := ⟨[
  ("UpdateID", ints [1, 2, 3, 4, 5, 6]),
  ("ProjectID", ints [101, 102, 101, 103, 102, 104]),
  ("Date", strs ["2023-01-20", "2023-02-05", "2023-03-15", "2023-04-10", "2023-05-25", "2023-06-05"]),
  ("Status", [.s "On Track", .s "Completed", .na, .s "Delayed", .s "On Track", .na]),
  ("Notes", [.s "Initial report", .s "Finalized", .s "Needs review", .na, .s "Mid-term update", .na])]⟩

/-- `health_data.csv` as first constructed, before the diagnosis-conditional
override of the medication column. -/
def df_health_initial : DataFrame := ⟨[
  ("PatientID", ints [1, 2, 3, 4, 5, 6, 7, 8, 9, 10]),
  ("Age", ints [30, 45, 22, 60, 35, 50, 28, 42, 55, 65]),
  ("Weight", ints [70, 85, 60, 90, 75, 80, 65, 78, 88, 92]),
  ("Diagnosis", strs ["Flu", "Malaria", "Flu", "Typhoid", "Flu", "Malaria", "Flu", "Typhoid", "Malaria", "Flu"]),
  ("Medication", [.s "A", .s "B", .na, .s "C", .s "A", .s "B", .na, .s "C", .s "B", .na])]⟩

/-- `health_data.csv` after
`df_health.loc[df_health['Diagnosis'] == 'Flu', 'Medication'] = np.nan`. -/
def df_health : DataFrame :=
  locSet df_health_initial (colEqMask df_health_initial "Diagnosis" (.s "Flu"))
    "Medication" .na

/-- `messy_data.csv`. -/
def df_messy : DataFrame := ⟨[
  ("ProjectID", strs ["101", "102", "103 ", "104", "105"]),
  ("Region", strs ["East Africa ", "south asia", "WEST AFRICA", "East Africa", "South Asia"]),
  ("Status", strs ["Active", "Completed ", "Pending", "active", "Completed"]),
  ("Budget", strs ["150000", "200000", "120000", "180000", "250000"])]⟩

/-- `item_data.csv`. -/
def df_item : DataFrame := ⟨[
  ("Item", strs ["   apple", "BANANA ", "orange", " GRAPES  "]),
  ("Quantity", strs ["10", "5", "12", "8"]),
  ("Price", strs ["1.20", "0.75", "2.50", "3.00"])]⟩

/-- `advanced_messy_data.csv`. -/
def df_advanced_messy : DataFrame := ⟨[
  ("ProjectCode", strs ["NGO-101", "PROJ_102", "NGO-103", "P-104", "NGO-105"]),
  ("Description", strs ["Food distribution in area A", "Shelter for displaced families", "Medical aid for children", "Water sanitation project", "Education support"]),
  ("StartDate", strs ["2023/01/15", "02-01-2023", "March 10, 2023", "2023-04-05", "2023-05-20"]),
  ("Beneficiaries", strs ["1,500", "2,000", "1,200", "1,800", "2,500"])]⟩

/-- `transaction_data.csv`. -/
def df_transaction : DataFrame := ⟨[
  ("TransactionID", strs ["TRX-ABC-123", "TXN_DEF_456", "GHI789", "TRX-JKL-010"]),
  ("Timestamp", strs ["2023-01-01 10:30:00", "Jan 2, 23 11:00 AM", "03/03/2023 13:45", "2023-04-04 09:00:00"]),
  ("Amount", ints [100, 200, 150, 300])]⟩

/-- `ngo_projects_cleaned.csv`. -/
def df_projects_cleaned : DataFrame := ⟨[
  ("ProjectID", ints [101, 102, 103, 104, 105, 106, 107]),
  ("Region", strs ["East Africa", "South Asia", "West Africa", "East Africa", "South Asia", "West Africa", "East Africa"]),
  ("Budget", ints [150000, 200000, 120000, 180000, 250000, 130000, 190000]),
  ("Status", strs ["Active", "Completed", "Active", "Completed", "Active", "Pending", "Active"]),
  ("StartDate", strs ["2023-01-15", "2023-02-01", "2023-03-10", "2023-04-05", "2023-05-20", "2023-06-01", "2023-07-10"])]⟩

/-- `beneficiary_records.csv`. -/
def df_beneficiary_records : DataFrame := ⟨[
  ("BeneficiaryID", ints [1, 2, 3, 4, 5, 6, 7, 8]),
  ("Age", ints [25, 34, 28, 40, 30, 22, 45, 38]),
  ("Gender", strs ["Female", "Male", "Female", "Male", "Female", "Male", "Female", "Male"]),
  ("Location", strs ["Camp A", "Village B", "Camp A", "Village C", "Camp B", "Village B", "Camp A", "Village C"]),
  ("AssistanceReceived", strs ["Food", "Shelter", "Medical", "Food", "Shelter", "Food", "Medical", "Shelter"])]⟩

/-- `aid_distribution.csv`. -/
def df_aid_distribution : DataFrame := ⟨[
  ("Country", strs ["Kenya", "Uganda", "Kenya", "Ethiopia", "Uganda", "Kenya", "Ethiopia", "Uganda"]),
  ("AidType", strs ["Food", "Medical", "Shelter", "Food", "Medical", "Food", "Shelter", "Food"]),
  ("AmountUSD", ints [100000, 150000, 80000, 120000, 200000, 90000, 110000, 180000]),
  ("Year", ints [2022, 2022, 2023, 2022, 2023, 2023, 2023, 2022])]⟩

/-- `beneficiary_data_dedup.csv`. -/
def df_beneficiary_dedup : DataFrame := ⟨[
  ("BeneficiaryID", ints [1, 2, 3, 1, 4, 5, 2, 6]),
  ("Age", ints [25, 34, 28, 25, 40, 30, 34, 55]),
  ("Gender", strs ["Female", "Male", "Female", "Female", "Male", "Female", "Male", "Male"]),
  ("AssistanceType", strs ["Food", "Shelter", "Food", "Food", "Medical", "Shelter", "Shelter", "Food"]),
  ("Location", strs ["Camp A", "Village B", "Camp A", "Camp A", "Village C", "Camp B", "Village B", "Camp A"])]⟩

/-- `event_logs.csv`. -/
def df_event_logs : DataFrame := ⟨[
  ("LogID", ints [1, 2, 3, 4, 5, 6, 7, 8]),
  ("Timestamp", strs ["2023-01-01 10:00:00", "2023-01-01 10:05:00", "2023-01-01 10:00:00", "2023-01-02 11:00:00", "2023-01-01 10:05:00", "2023-01-03 12:00:00", "2023-01-02 11:00:00", "2023-01-04 13:00:00"]),
  ("EventType", strs ["Login", "View Page", "Login", "Logout", "View Page", "Login", "Logout", "View Page"]),
  ("UserID", strs ["userA", "userB", "userA", "userC", "userB", "userA", "userC", "userD"])]⟩

/-- `partner_organizations.csv`. -/
def df_partners : DataFrame := ⟨[
  ("OrgID", ints [1, 2, 3, 4, 5, 6, 7]),
  ("OrgName", strs ["Save the Children", "Save The Children Intl.", "Doctors Without Borders", "Medecins Sans Frontieres", "Save Childrn", "Doctors W/O Borders", "Save the Children"]),
  ("ContactPerson", strs ["Alice", "Bob", "Charlie", "David", "Eve", "Frank", "Grace"]),
  ("City", strs ["New York", "NYC", "Paris", "Paris", "New-York", "London", "New York"])]⟩

/-- `health_records.csv`. -/
def df_health_records : DataFrame := ⟨[
  ("PatientID", ints [1, 2, 3, 4, 5, 6, 7, 8, 9, 10]),
  ("WeightKg", ints [70, 85, 60, 90, 75, 80, 65, 78, 88, 92]),
  ("HeightCm", ints [175, 180, 160, 185, 170, 178, 165, 172, 182, 190]),
  ("BloodPressureSystolic", ints [120, 135, 110, 150, 125, 140, 115, 130, 145, 160]),
  ("BloodPressureDiastolic", ints [80, 85, 70, 95, 82, 90, 75, 80, 92, 100])]⟩

/-- `school_data.csv`. -/
def df_school : DataFrame := ⟨[
  ("SchoolID", ints [1, 2, 3, 4, 5, 6, 7, 8]),
  ("District", strs ["North", "South", "East", "West", "North", "South", "East", "West"]),
  ("Enrollment", ints [500, 700, 600, 800, 550, 720, 630, 850]),
  ("FundingPerStudent", ints [1000, 950, 1100, 900, 1050, 980, 1120, 920]),
  ("TestScoreAverage", ints [75, 80, 70, 85, 78, 82, 72, 88])]⟩

/-- `district_poverty.csv` (the only table with float literals). -/
def df_poverty : DataFrame := ⟨[
  ("District", strs ["North", "South", "East", "West"]),
  ("PovertyRate", [.f 15 2, .f 10 2, .f 20 2, .f 8 2])]⟩

end Tables

section Procedural

/-- The draw functions feeding every random sampling call of one run, in
source order; each is an arbitrary function from position to raw draw. -/
structure Draws where
  largeRegion : Nat → Nat
  largeStatus : Nat → Nat
  largeBudget : Nat → Nat
  countryPick : Nat → Nat
  eventPick : Nat → Nat
  reportPick : Nat → Nat
  offsetPick : Nat → Nat

/-- `num_rows_large = 100000`. -/
def num_rows_large : Nat := 100000

/-- `large_ngo_projects.csv`: sequential ids and three sampled columns. -/
def df_large_sample (dr : Draws) : DataFrame := ⟨[
  ("ProjectID", (npArange 1 (num_rows_large + 1)).map Cell.i),
  ("Region", (List.range num_rows_large).map (fun i =>
    Cell.s (npChoice ["East Africa", "South Asia", "West Africa", "Latin America"] "" dr.largeRegion i))),
  ("Status", (List.range num_rows_large).map (fun i =>
    Cell.s (npChoice ["Active", "Completed", "Pending"] "" dr.largeStatus i))),
  ("Budget", (List.range num_rows_large).map (fun i =>
    Cell.i (npRandint 50000 500000 dr.largeBudget i)))]⟩

/-- `num_rows_country = 100000`. -/
def num_rows_country : Nat := 100000

/-- The fixed country-name vocabulary, duplicate-entity spellings and the
leading-whitespace entry included. -/
def countries : List String :=
  ["United States", "USA", "United States of America", "   united states",
   "Canada", "Mexico", "UK", "United Kingdom"]

/-- `start_date = datetime(2020, 1, 1)` as an absolute day number. -/
def start_date : Nat := daysFromCivil 2020 1 1

/-- `end_date = datetime(2023, 12, 31)` as an absolute day number. -/
def end_date : Nat := daysFromCivil 2023 12 31

/-- `[start_date + timedelta(days=x) for x in range((end_date - start_date).days)]`:
the final day is excluded because `range` stops one short of the span. -/
def date_range : List Nat :=
  (List.range (end_date - start_date)).map (fun x => start_date + x)

/-- `large_country_data` as first constructed, with an independently
sampled `ReportDate` column. -/
def df_country_initial (dr : Draws) : DataFrame := ⟨[
  ("Country", (List.range num_rows_country).map (fun i =>
    Cell.s (npChoice countries "" dr.countryPick i))),
  ("EventDate", (List.range num_rows_country).map (fun i =>
    Cell.d (npChoice date_range 0 dr.eventPick i))),
  ("ReportDate", (List.range num_rows_country).map (fun i =>
    Cell.d (npChoice date_range 0 dr.reportPick i)))]⟩

/-- Elementwise `dates + pd.to_timedelta(offsets, unit='D')`. -/
def pdAddDays (cells : List Cell) (offs : List Nat) : List Cell :=
  List.zipWith (fun c o => match c with | Cell.d e => Cell.d (e + o) | c => c) cells offs

/-- `large_country_data.csv` after
`df_country['ReportDate'] = df_country['EventDate'] + pd.to_timedelta(np.random.randint(1, 30, n), unit='D')`. -/
def df_country (dr : Draws) : DataFrame :=
  setCol (df_country_initial dr) "ReportDate"
    (pdAddDays ((getCol? (df_country_initial dr) "EventDate").getD [])
      ((List.range num_rows_country).map (fun i => npRandint 1 30 dr.offsetPick i)))

end Procedural

section Trace

/-- An observable effect of a run: one `to_csv` file write, or one line
printed to standard output. -/
inductive Effect where
  | toCsvFile (name content : String)
  | printMsg (line : String)
  deriving DecidableEq

/-- The full effect trace of `generate_ngo_data()`, in source order: the
twenty `df.to_csv(name, index=False)` writes, then the single success
message. -/
def generate_ngo_data (dr : Draws) : List Effect := [
  .toCsvFile "ngo_projects.csv" (toCsv df_projects),
  .toCsvFile "beneficiary_data.csv" (toCsv df_beneficiary_basic),
  .toCsvFile "large_ngo_projects.csv" (toCsv (df_large_sample dr)),
  .toCsvFile "beneficiary_data_missing.csv" (toCsv df_missing),
  .toCsvFile "project_updates.csv" (toCsv df_project_updates),
  .toCsvFile "health_data.csv" (toCsv df_health),
  .toCsvFile "messy_data.csv" (toCsv df_messy),
  .toCsvFile "item_data.csv" (toCsv df_item),
  .toCsvFile "advanced_messy_data.csv" (toCsv df_advanced_messy),
  .toCsvFile "transaction_data.csv" (toCsv df_transaction),
  .toCsvFile "large_country_data.csv" (toCsv (df_country dr)),
  .toCsvFile "ngo_projects_cleaned.csv" (toCsv df_projects_cleaned),
  .toCsvFile "beneficiary_records.csv" (toCsv df_beneficiary_records),
  .toCsvFile "aid_distribution.csv" (toCsv df_aid_distribution),
  .toCsvFile "beneficiary_data_dedup.csv" (toCsv df_beneficiary_dedup),
  .toCsvFile "event_logs.csv" (toCsv df_event_logs),
  .toCsvFile "partner_organizations.csv" (toCsv df_partners),
  .toCsvFile "health_records.csv" (toCsv df_health_records),
  .toCsvFile "school_data.csv" (toCsv df_school),
  .toCsvFile "district_poverty.csv" (toCsv df_poverty),
  .printMsg "All synthetic NGO datasets generated successfully."]

/-- The 18 deterministic (literal) tables, in source order. -/
def literalTables : List DataFrame :=
  [df_projects, df_beneficiary_basic, df_missing, df_project_updates,
   df_health, df_messy, df_item, df_advanced_messy, df_transaction,
   df_projects_cleaned, df_beneficiary_records, df_aid_distribution,
   df_beneficiary_dedup, df_event_logs, df_partners, df_health_records,
   df_school, df_poverty]

end Trace

section Helpers

/-- `getD` at an in-range index is a member of the list. -/
theorem getD_mem {α : Type} (l : List α) (i : Nat) (d : α) (h : i < l.length) :
    l.getD i d ∈ l := by
  rw [List.getD_eq_getElem?_getD, List.getElem?_eq_getElem h]
  exact List.getElem_mem h

/-- Zipping two maps over the same list is a map. -/
theorem zipWith_map_same {α β γ δ : Type} (f : α → β → γ) (g : δ → α) (h : δ → β)
    (l : List δ) :
    List.zipWith f (l.map g) (l.map h) = l.map (fun x => f (g x) (h x)) := by
  induction l with
  | nil => rfl
  | cons a t ih => simp [ih]

/-- Indexing a map over `List.range`. -/
theorem getElem?_range_map {α : Type} (f : Nat → α) (n i : Nat) (h : i < n) :
    ((List.range n).map f)[i]? = some (f i) := by
  simp [List.getElem?_map, List.getElem?_range, h]

/-- The columns of `df_country` after the `ReportDate` assignment. -/
theorem df_country_cols (dr : Draws) :
    (df_country dr).cols = [
      ("Country", (List.range num_rows_country).map (fun i =>
        Cell.s (npChoice countries "" dr.countryPick i))),
      ("EventDate", (List.range num_rows_country).map (fun i =>
        Cell.d (npChoice date_range 0 dr.eventPick i))),
      ("ReportDate", (List.range num_rows_country).map (fun i =>
        Cell.d (npChoice date_range 0 dr.eventPick i + npRandint 1 30 dr.offsetPick i)))] := by
  show (setCol (df_country_initial dr) "ReportDate"
    (pdAddDays ((getCol? (df_country_initial dr) "EventDate").getD [])
      ((List.range num_rows_country).map (fun i => npRandint 1 30 dr.offsetPick i)))).cols = _
  have he : getCol? (df_country_initial dr) "EventDate" =
      some ((List.range num_rows_country).map (fun i =>
        Cell.d (npChoice date_range 0 dr.eventPick i))) := rfl
  rw [he, Option.getD_some]
  simp only [pdAddDays]
  rw [zipWith_map_same]
  rfl

/-- The `Country` cell at an in-range row of `df_country`. -/
theorem country_cell (dr : Draws) (i : Nat) (h : i < num_rows_country) :
    getCell (df_country dr) "Country" i =
      some (Cell.s (npChoice countries "" dr.countryPick i)) := by
  rw [getCell, getCol?, df_country_cols]
  simp [List.lookup, getElem?_range_map _ _ _ h]

/-- The `EventDate` cell at an in-range row of `df_country`. -/
theorem event_cell (dr : Draws) (i : Nat) (h : i < num_rows_country) :
    getCell (df_country dr) "EventDate" i =
      some (Cell.d (npChoice date_range 0 dr.eventPick i)) := by
  rw [getCell, getCol?, df_country_cols]
  simp [List.lookup, getElem?_range_map _ _ _ h]

/-- The `ReportDate` cell at an in-range row of `df_country`: the event day
plus the freshly drawn offset; the independently sampled report draw is
gone. -/
theorem report_cell (dr : Draws) (i : Nat) (h : i < num_rows_country) :
    getCell (df_country dr) "ReportDate" i =
      some (Cell.d (npChoice date_range 0 dr.eventPick i +
        npRandint 1 30 dr.offsetPick i)) := by
  rw [getCell, getCol?, df_country_cols]
  simp [List.lookup, getElem?_range_map _ _ _ h]

/-- The offset added to every event date lies in `[1, 29]`. -/
theorem npRandint_1_30_bounds (g : Nat → Nat) (i : Nat) :
    1 ≤ npRandint 1 30 g i ∧ npRandint 1 30 g i ≤ 29 := by
  unfold npRandint
  have : g i % (30 - 1) < 29 := Nat.mod_lt _ (by decide)
  omega

/-- The date span of the generator: 1460 days, one short of reaching
2023-12-31. -/
theorem date_span : end_date - start_date = 1460 := by decide

/-- `date_range` lists exactly 1460 days. -/
theorem date_range_length : date_range.length = 1460 := by
  rw [date_range, List.length_map, List.length_range]
  exact date_span

/-- Every sampled event day is `start_date` plus an offset below 1460. -/
theorem npChoice_date_range (g : Nat → Nat) (i : Nat) :
    npChoice date_range 0 g i = start_date + g i % 1460 ∧ g i % 1460 < 1460 := by
  have hlt : g i % 1460 < 1460 := Nat.mod_lt _ (by norm_num)
  refine ⟨?_, hlt⟩
  show date_range.getD (g i % date_range.length) 0 = _
  rw [date_range_length]
  show ((List.range (end_date - start_date)).map (fun x => start_date + x)).getD
    (g i % 1460) 0 = _
  have hb : g i % 1460 < end_date - start_date := by rw [date_span]; exact hlt
  rw [List.getD_eq_getElem?_getD, getElem?_range_map _ _ _ hb, Option.getD_some]

/-- `nrows` of a table is the length of its first column. -/
theorem nrows_cons (name : String) (cells : List Cell)
    (rest : List (String × List Cell)) :
    nrows ⟨(name, cells) :: rest⟩ = cells.length := rfl

/-- The number of rows of `df_country` is `num_rows_country`. -/
theorem country_nrows (dr : Draws) : nrows (df_country dr) = num_rows_country := by
  have h : df_country dr = ⟨(df_country dr).cols⟩ := rfl
  rw [h, df_country_cols, nrows_cons, List.length_map, List.length_range]

/-- The length of `np.arange(lo, hi)`. -/
theorem npArange_length (lo hi : Int) : (npArange lo hi).length = (hi - lo).toNat := by
  rw [npArange, List.length_map, List.length_range]

/-- The number of rows of `df_large_sample` is `num_rows_large`. -/
theorem large_nrows (dr : Draws) : nrows (df_large_sample dr) = num_rows_large := by
  show nrows ⟨("ProjectID", (npArange 1 (num_rows_large + 1)).map Cell.i) :: _⟩ =
    num_rows_large
  rw [nrows_cons, List.length_map, npArange_length]
  simp only [num_rows_large]
  omega

end Helpers

/-- C1: in `health_data` every row whose `Diagnosis` is `"Flu"` has a
missing `Medication` after the `.loc` override, a pre-override literal value
such as `'A'` included; in `health_records` (which has no diagnosis or
medication column at all) the property holds vacuously; before the override
the property fails, so the override does overwrite literal values. -/
theorem flu_medication_overridden :
    (∀ i, i < nrows df_health →
      getCell df_health "Diagnosis" i = some (.s "Flu") →
      getCell df_health "Medication" i = some .na) ∧
    (∀ i, i < nrows df_health_records →
      getCell df_health_records "Diagnosis" i = some (.s "Flu") →
      getCell df_health_records "Medication" i = some .na) ∧
    ¬ (∀ i, i < nrows df_health_initial →
      getCell df_health_initial "Diagnosis" i = some (.s "Flu") →
      getCell df_health_initial "Medication" i = some .na) := by
  decide

/-- C10: in `health_data`, the `Medication` cell is missing exactly on the
rows whose `Diagnosis` is `"Flu"`: every pre-override missing marker already
sat on a Flu row, so non-Flu rows keep a non-missing medication. -/
theorem medication_missing_iff_flu (i : Nat) (h : i < nrows df_health) :
    getCell df_health "Medication" i = some .na ↔
      getCell df_health "Diagnosis" i = some (.s "Flu") := by
  revert i
  decide

/-- Witness for C10 at row 1 (a Malaria row keeping medication `B`). -/
theorem medication_missing_iff_flu_witness :
    1 < nrows df_health ∧
      (getCell df_health "Medication" 1 = some .na ↔
        getCell df_health "Diagnosis" 1 = some (.s "Flu")) :=
  ⟨by decide, medication_missing_iff_flu 1 (by decide)⟩

/-- The all-zero draw functions, a concrete run of the generator. -/
def zeroDraws : Draws :=
  ⟨fun _ => 0, fun _ => 0, fun _ => 0, fun _ => 0, fun _ => 0, fun _ => 0, fun _ => 0⟩

/-- C2: in `large_country_data`, every row's `ReportDate` equals its
`EventDate` plus an offset in `[1, 29]` days, and the `ReportDate` column
does not depend on the independently drawn report-date samples, which the
assignment discards. -/
theorem report_date_derived_from_event_date (dr : Draws) (i : Nat)
    (h : i < num_rows_country) :
    ∃ e off,
      getCell (df_country dr) "EventDate" i = some (.d e) ∧
      getCell (df_country dr) "ReportDate" i = some (.d (e + off)) ∧
      1 ≤ off ∧ off ≤ 29 ∧
      ∀ g : Nat → Nat,
        getCell (df_country { dr with reportPick := g }) "ReportDate" i =
          getCell (df_country dr) "ReportDate" i := by
  refine ⟨npChoice date_range 0 dr.eventPick i, npRandint 1 30 dr.offsetPick i,
    event_cell dr i h, report_cell dr i h,
    (npRandint_1_30_bounds dr.offsetPick i).1,
    (npRandint_1_30_bounds dr.offsetPick i).2, ?_⟩
  intro g
  rw [report_cell dr i h, report_cell { dr with reportPick := g } i h]

/-- Witness for C2: row 0 of the all-zero run. -/
theorem report_date_derived_from_event_date_witness :
    ∃ e off,
      getCell (df_country zeroDraws) "EventDate" 0 = some (.d e) ∧
      getCell (df_country zeroDraws) "ReportDate" 0 = some (.d (e + off)) ∧
      1 ≤ off ∧ off ≤ 29 ∧
      ∀ g : Nat → Nat,
        getCell (df_country { zeroDraws with reportPick := g }) "ReportDate" 0 =
          getCell (df_country zeroDraws) "ReportDate" 0 :=
  report_date_derived_from_event_date zeroDraws 0 (by decide)

/-- C5: every `Country` cell of `large_country_data` is drawn from the fixed
8-entry vocabulary, which contains duplicate spellings of the United States
and of the United Kingdom and the leading-whitespace entry. -/
theorem country_column_vocabulary (dr : Draws) (i : Nat)
    (h : i < num_rows_country) :
    (∃ v ∈ countries, getCell (df_country dr) "Country" i = some (.s v)) ∧
    countries.length = 8 ∧
    "   united states" ∈ countries ∧
    "USA" ∈ countries ∧ "United States" ∈ countries ∧
    "UK" ∈ countries ∧ "United Kingdom" ∈ countries := by
  refine ⟨⟨npChoice countries "" dr.countryPick i, ?_, country_cell dr i h⟩,
    by decide, by decide, by decide, by decide, by decide, by decide⟩
  exact getD_mem _ _ _ (Nat.mod_lt _ (by decide))

/-- Witness for C5: row 0 of the all-zero run. -/
theorem country_column_vocabulary_witness :
    (∃ v ∈ countries, getCell (df_country zeroDraws) "Country" 0 = some (.s v)) ∧
    countries.length = 8 ∧
    "   united states" ∈ countries ∧
    "USA" ∈ countries ∧ "United States" ∈ countries ∧
    "UK" ∈ countries ∧ "United Kingdom" ∈ countries :=
  country_column_vocabulary zeroDraws 0 (by decide)

/-- C4: under every draw, both procedural tables have exactly 100,000 rows,
and the `ProjectID` column of `large_ngo_projects` is exactly the sequential
range 1..100000, which has no duplicates. -/
theorem large_tables_shape (dr : Draws) :
    nrows (df_large_sample dr) = 100000 ∧
    nrows (df_country dr) = 100000 ∧
    ∃ l, getCol? (df_large_sample dr) "ProjectID" = some l ∧
      l = (List.range 100000).map (fun (k : Nat) => Cell.i ((k : Int) + 1)) ∧
      l.Nodup := by
  have hl : getCol? (df_large_sample dr) "ProjectID" =
      some ((npArange 1 ((num_rows_large : Int) + 1)).map Cell.i) := rfl
  have harg : (((num_rows_large : Int) + 1) - 1).toNat = 100000 := by
    simp only [num_rows_large]
    omega
  have heq : (npArange 1 ((num_rows_large : Int) + 1)).map Cell.i =
      (List.range 100000).map (fun (k : Nat) => Cell.i ((k : Int) + 1)) := by
    simp only [npArange, harg, List.map_map]
    refine List.map_congr_left ?_
    intro a _
    simp [Function.comp, Int.add_comm]
  refine ⟨large_nrows dr, country_nrows dr,
    (npArange 1 ((num_rows_large : Int) + 1)).map Cell.i, hl, heq, ?_⟩
  rw [heq]
  refine List.Nodup.map ?_ (List.nodup_range 100000)
  intro a b hab
  simp only [Cell.i.injEq] at hab
  omega

/-- Witness for C4: the all-zero run. -/
theorem large_tables_shape_witness :
    nrows (df_large_sample zeroDraws) = 100000 ∧
    nrows (df_country zeroDraws) = 100000 ∧
    ∃ l, getCol? (df_large_sample zeroDraws) "ProjectID" = some l ∧
      l = (List.range 100000).map (fun (k : Nat) => Cell.i ((k : Int) + 1)) ∧
      l.Nodup :=
  large_tables_shape zeroDraws

/-- The draw functions attaining the maximal report date. -/
def maxDraws : Draws :=
  ⟨fun _ => 0, fun _ => 0, fun _ => 0, fun _ => 0, fun _ => 1459, fun _ => 0,
   fun _ => 28⟩

/-- C9: every `EventDate` of `large_country_data` lies in
[2020-01-01, 2023-12-30]; the configured end date 2023-12-31 is never
sampled, every `ReportDate` is at most 2024-01-28, that bound is attained
under some draw, and it lies strictly beyond the configured end date. -/
theorem event_date_range_bounds (dr : Draws) (i : Nat)
    (h : i < num_rows_country) :
    (∃ e, getCell (df_country dr) "EventDate" i = some (.d e) ∧
      start_date ≤ e ∧ e ≤ daysFromCivil 2023 12 30 ∧
      e ≠ end_date) ∧
    (∃ r, getCell (df_country dr) "ReportDate" i = some (.d r) ∧
      r ≤ daysFromCivil 2024 1 28) ∧
    (∃ dr2 : Draws, ∃ i2, i2 < num_rows_country ∧
      getCell (df_country dr2) "ReportDate" i2 =
        some (.d (daysFromCivil 2024 1 28))) ∧
    end_date < daysFromCivil 2024 1 28 := by
  have hmax : start_date + 1459 = daysFromCivil 2023 12 30 := by decide
  have hrep : start_date + 1459 + 29 = daysFromCivil 2024 1 28 := by decide
  have hend : daysFromCivil 2023 12 30 < end_date := by decide
  have hev := npChoice_date_range dr.eventPick i
  have hoff := npRandint_1_30_bounds dr.offsetPick i
  refine ⟨⟨npChoice date_range 0 dr.eventPick i, event_cell dr i h, ?_, ?_, ?_⟩,
    ⟨npChoice date_range 0 dr.eventPick i + npRandint 1 30 dr.offsetPick i,
      report_cell dr i h, ?_⟩, ?_, by decide⟩
  · omega
  · omega
  · omega
  · omega
  · refine ⟨maxDraws, 0, by decide, ?_⟩
    rw [report_cell maxDraws 0 (by decide)]
    have h1 := (npChoice_date_range maxDraws.eventPick 0).1
    have h2 : npRandint 1 30 maxDraws.offsetPick 0 = 29 := by decide
    have h3 : maxDraws.eventPick 0 % 1460 = 1459 := by decide
    have h4 : start_date + 1459 + 29 = daysFromCivil 2024 1 28 := by decide
    rw [h1, h2, h3, h4]

/-- Witness for C9: row 0 of the all-zero run. -/
theorem event_date_range_bounds_witness :
    (∃ e, getCell (df_country zeroDraws) "EventDate" 0 = some (.d e) ∧
      start_date ≤ e ∧ e ≤ daysFromCivil 2023 12 30 ∧
      e ≠ end_date) ∧
    (∃ r, getCell (df_country zeroDraws) "ReportDate" 0 = some (.d r) ∧
      r ≤ daysFromCivil 2024 1 28) ∧
    (∃ dr2 : Draws, ∃ i2, i2 < num_rows_country ∧
      getCell (df_country dr2) "ReportDate" i2 =
        some (.d (daysFromCivil 2024 1 28))) ∧
    end_date < daysFromCivil 2024 1 28 :=
  event_date_range_bounds zeroDraws 0 (by decide)


/-- C3: for every literal table, parsing the written CSV text back yields
exactly the hand-specified grid: all rows, columns and values, leading and
trailing whitespace in string cells, comma-containing fields restored by
unquoting, missing markers as empty fields, and integers of nan-carrying
(float64) columns in their `n.0` float rendering. -/
theorem literal_tables_roundtrip :
    parseCsv (toCsv df_projects) = [
      ["ProjectID", "Region", "StartDate", "EndDate", "Budget"],
      ["101", "East Africa", "2023-01-15", "2023-06-30", "150000"],
      ["102", "South Asia", "2023-02-01", "2023-07-15", "200000"],
      ["103", "West Africa", "2023-03-10", "2023-08-20", "120000"],
      ["104", "East Africa", "2023-04-05", "2023-09-10", "180000"],
      ["105", "South Asia", "2023-05-20", "2023-10-30", "250000"]] ∧
    parseCsv (toCsv df_beneficiary_basic) = [
      ["BeneficiaryID", "Age", "Gender", "Location", "AssistanceType"],
      ["1", "25", "Female", "Camp A", "Food"],
      ["2", "34", "Male", "Village B", "Shelter"],
      ["3", "28", "Female", "Camp A", "Medical"],
      ["4", "40", "Male", "Village C", "Food"],
      ["5", "30", "Female", "Camp B", "Shelter"]] ∧
    parseCsv (toCsv df_missing) = [
      ["BeneficiaryID", "Age", "Gender", "Location", "AssistanceType"],
      ["1", "25.0", "Female", "Camp A", "Food"],
      ["2", "34.0", "Male", "Village B", "Shelter"],
      ["3", "", "Female", "Camp A", ""],
      ["4", "45.0", "Male", "Village C", "Food"],
      ["5", "19.0", "Female", "Camp B", "Medical"],
      ["6", "", "Male", "Village B", "Shelter"],
      ["7", "50.0", "Female", "Camp A", "Food"]] ∧
    parseCsv (toCsv df_project_updates) = [
      ["UpdateID", "ProjectID", "Date", "Status", "Notes"],
      ["1", "101", "2023-01-20", "On Track", "Initial report"],
      ["2", "102", "2023-02-05", "Completed", "Finalized"],
      ["3", "101", "2023-03-15", "", "Needs review"],
      ["4", "103", "2023-04-10", "Delayed", ""],
      ["5", "102", "2023-05-25", "On Track", "Mid-term update"],
      ["6", "104", "2023-06-05", "", ""]] ∧
    parseCsv (toCsv df_health) = [
      ["PatientID", "Age", "Weight", "Diagnosis", "Medication"],
      ["1", "30", "70", "Flu", ""],
      ["2", "45", "85", "Malaria", "B"],
      ["3", "22", "60", "Flu", ""],
      ["4", "60", "90", "Typhoid", "C"],
      ["5", "35", "75", "Flu", ""],
      ["6", "50", "80", "Malaria", "B"],
      ["7", "28", "65", "Flu", ""],
      ["8", "42", "78", "Typhoid", "C"],
      ["9", "55", "88", "Malaria", "B"],
      ["10", "65", "92", "Flu", ""]] ∧
    parseCsv (toCsv df_messy) = [
      ["ProjectID", "Region", "Status", "Budget"],
      ["101", "East Africa ", "Active", "150000"],
      ["102", "south asia", "Completed ", "200000"],
      ["103 ", "WEST AFRICA", "Pending", "120000"],
      ["104", "East Africa", "active", "180000"],
      ["105", "South Asia", "Completed", "250000"]] ∧
    parseCsv (toCsv df_item) = [
      ["Item", "Quantity", "Price"],
      ["   apple", "10", "1.20"],
      ["BANANA ", "5", "0.75"],
      ["orange", "12", "2.50"],
      [" GRAPES  ", "8", "3.00"]] ∧
    parseCsv (toCsv df_advanced_messy) = [
      ["ProjectCode", "Description", "StartDate", "Beneficiaries"],
      ["NGO-101", "Food distribution in area A", "2023/01/15", "1,500"],
      ["PROJ_102", "Shelter for displaced families", "02-01-2023", "2,000"],
      ["NGO-103", "Medical aid for children", "March 10, 2023", "1,200"],
      ["P-104", "Water sanitation project", "2023-04-05", "1,800"],
      ["NGO-105", "Education support", "2023-05-20", "2,500"]] ∧
    parseCsv (toCsv df_transaction) = [
      ["TransactionID", "Timestamp", "Amount"],
      ["TRX-ABC-123", "2023-01-01 10:30:00", "100"],
      ["TXN_DEF_456", "Jan 2, 23 11:00 AM", "200"],
      ["GHI789", "03/03/2023 13:45", "150"],
      ["TRX-JKL-010", "2023-04-04 09:00:00", "300"]] ∧
    parseCsv (toCsv df_projects_cleaned) = [
      ["ProjectID", "Region", "Budget", "Status", "StartDate"],
      ["101", "East Africa", "150000", "Active", "2023-01-15"],
      ["102", "South Asia", "200000", "Completed", "2023-02-01"],
      ["103", "West Africa", "120000", "Active", "2023-03-10"],
      ["104", "East Africa", "180000", "Completed", "2023-04-05"],
      ["105", "South Asia", "250000", "Active", "2023-05-20"],
      ["106", "West Africa", "130000", "Pending", "2023-06-01"],
      ["107", "East Africa", "190000", "Active", "2023-07-10"]] ∧
    parseCsv (toCsv df_beneficiary_records) = [
      ["BeneficiaryID", "Age", "Gender", "Location", "AssistanceReceived"],
      ["1", "25", "Female", "Camp A", "Food"],
      ["2", "34", "Male", "Village B", "Shelter"],
      ["3", "28", "Female", "Camp A", "Medical"],
      ["4", "40", "Male", "Village C", "Food"],
      ["5", "30", "Female", "Camp B", "Shelter"],
      ["6", "22", "Male", "Village B", "Food"],
      ["7", "45", "Female", "Camp A", "Medical"],
      ["8", "38", "Male", "Village C", "Shelter"]] ∧
    parseCsv (toCsv df_aid_distribution) = [
      ["Country", "AidType", "AmountUSD", "Year"],
      ["Kenya", "Food", "100000", "2022"],
      ["Uganda", "Medical", "150000", "2022"],
      ["Kenya", "Shelter", "80000", "2023"],
      ["Ethiopia", "Food", "120000", "2022"],
      ["Uganda", "Medical", "200000", "2023"],
      ["Kenya", "Food", "90000", "2023"],
      ["Ethiopia", "Shelter", "110000", "2023"],
      ["Uganda", "Food", "180000", "2022"]] ∧
    parseCsv (toCsv df_beneficiary_dedup) = [
      ["BeneficiaryID", "Age", "Gender", "AssistanceType", "Location"],
      ["1", "25", "Female", "Food", "Camp A"],
      ["2", "34", "Male", "Shelter", "Village B"],
      ["3", "28", "Female", "Food", "Camp A"],
      ["1", "25", "Female", "Food", "Camp A"],
      ["4", "40", "Male", "Medical", "Village C"],
      ["5", "30", "Female", "Shelter", "Camp B"],
      ["2", "34", "Male", "Shelter", "Village B"],
      ["6", "55", "Male", "Food", "Camp A"]] ∧
    parseCsv (toCsv df_event_logs) = [
      ["LogID", "Timestamp", "EventType", "UserID"],
      ["1", "2023-01-01 10:00:00", "Login", "userA"],
      ["2", "2023-01-01 10:05:00", "View Page", "userB"],
      ["3", "2023-01-01 10:00:00", "Login", "userA"],
      ["4", "2023-01-02 11:00:00", "Logout", "userC"],
      ["5", "2023-01-01 10:05:00", "View Page", "userB"],
      ["6", "2023-01-03 12:00:00", "Login", "userA"],
      ["7", "2023-01-02 11:00:00", "Logout", "userC"],
      ["8", "2023-01-04 13:00:00", "View Page", "userD"]] ∧
    parseCsv (toCsv df_partners) = [
      ["OrgID", "OrgName", "ContactPerson", "City"],
      ["1", "Save the Children", "Alice", "New York"],
      ["2", "Save The Children Intl.", "Bob", "NYC"],
      ["3", "Doctors Without Borders", "Charlie", "Paris"],
      ["4", "Medecins Sans Frontieres", "David", "Paris"],
      ["5", "Save Childrn", "Eve", "New-York"],
      ["6", "Doctors W/O Borders", "Frank", "London"],
      ["7", "Save the Children", "Grace", "New York"]] ∧
    parseCsv (toCsv df_health_records) = [
      ["PatientID", "WeightKg", "HeightCm", "BloodPressureSystolic", "BloodPressureDiastolic"],
      ["1", "70", "175", "120", "80"],
      ["2", "85", "180", "135", "85"],
      ["3", "60", "160", "110", "70"],
      ["4", "90", "185", "150", "95"],
      ["5", "75", "170", "125", "82"],
      ["6", "80", "178", "140", "90"],
      ["7", "65", "165", "115", "75"],
      ["8", "78", "172", "130", "80"],
      ["9", "88", "182", "145", "92"],
      ["10", "92", "190", "160", "100"]] ∧
    parseCsv (toCsv df_school) = [
      ["SchoolID", "District", "Enrollment", "FundingPerStudent", "TestScoreAverage"],
      ["1", "North", "500", "1000", "75"],
      ["2", "South", "700", "950", "80"],
      ["3", "East", "600", "1100", "70"],
      ["4", "West", "800", "900", "85"],
      ["5", "North", "550", "1050", "78"],
      ["6", "South", "720", "980", "82"],
      ["7", "East", "630", "1120", "72"],
      ["8", "West", "850", "920", "88"]] ∧
    parseCsv (toCsv df_poverty) = [
      ["District", "PovertyRate"],
      ["North", "0.15"],
      ["South", "0.1"],
      ["East", "0.2"],
      ["West", "0.08"]] := by
  decide

/-- The CSV fields emitted for one column, in row order. -/
def colFields (cells : List Cell) : List String :=
  cells.map (fun c => quoteField (renderCell (colDtype cells) c))

/-- A column whose cells are all integers or missing (an int column promoted
to float64 by missing markers, or a pure int column). -/
def intOrNaCol (cells : List Cell) : Bool :=
  cells.all (fun c => match c with | .i _ => true | .na => true | _ => false)

/-- A column whose cells are all integers. -/
def pureIntCol (cells : List Cell) : Bool :=
  cells.all (fun c => match c with | .i _ => true | _ => false)

/-- C6: a missing cell serializes as the empty field under every dtype; in
every literal table, every numeric column carrying missing markers emits
only numeric-or-empty fields, and every pure integer column (the neighbors
of nan-promoted columns included) emits exact decimal integers, so float
missing markers never corrupt integer-typed columns. -/
theorem missing_serialization_safe :
    (∀ dt : Dtype, renderCell dt Cell.na = "" ∧ quoteField (renderCell dt Cell.na) = "") ∧
    (literalTables.all (fun t => t.cols.all (fun c =>
      (!intOrNaCol c.2 || (colFields c.2).all numericOrEmpty) &&
      (!pureIntCol c.2 || colFields c.2 == c.2.map (fun cell =>
          match cell with | .i n => intRepr n | _ => ""))))) = true ∧
    (literalTables.all (fun t => t.cols.all (fun c =>
      (List.zip c.2 (colFields c.2)).all (fun p =>
        p.1 != Cell.na || p.2 == "")))) = true := by
  refine ⟨?_, by decide, by decide⟩
  intro dt
  cases dt <;> exact ⟨rfl, rfl⟩

/-- The file names of the write effects of a trace, in order. -/
def writeNames (tr : List Effect) : List String :=
  tr.filterMap (fun e => match e with
    | .toCsvFile n _ => some n
    | .printMsg _ => none)

/-- The (file name, first line of content) pairs of the write effects. -/
def writeHeaders (tr : List Effect) : List (String × String) :=
  tr.filterMap (fun e => match e with
    | .toCsvFile n c => some (n, firstLine c)
    | .printMsg _ => none)

/-- The lines printed to standard output by a trace, in order. -/
def printedLines (tr : List Effect) : List String :=
  tr.filterMap (fun e => match e with
    | .printMsg s => some s
    | .toCsvFile _ _ => none)

/-- `takeWhile` consumes a satisfying prefix up to the first failing
element. -/
theorem takeWhile_append_cons {α : Type} (p : α → Bool) (l1 l2 : List α) (c : α)
    (h : l1.all p = true) (hc : p c = false) :
    (l1 ++ c :: l2).takeWhile p = l1 := by
  induction l1 with
  | nil => simp [List.takeWhile_cons, hc]
  | cons a t ih =>
    simp only [List.all_cons, Bool.and_eq_true] at h
    simp [List.takeWhile_cons, h.1, ih h.2]

/-- The first line of a serialized table is its header line. -/
theorem firstLine_toCsv (df : DataFrame)
    (h : (headerLine df).data.all (fun c => c != '\n') = true) :
    firstLine (toCsv df) = headerLine df := by
  have hdata : (toCsv df).data = (headerLine df).data ++ '\n' ::
      (String.join ((List.range (nrows df)).map (fun r => csvRow df r ++ "\n"))).data := by
    rw [toCsv, String.data_append, String.data_append]
    rw [show ("\n" : String).data = ['\n'] from rfl]
    rw [List.append_assoc]
    rfl
  rw [firstLine, hdata, takeWhile_append_cons (fun c => c != '\n')
    (headerLine df).data
    ((String.join ((List.range (nrows df)).map (fun r => csvRow df r ++ "\n"))).data)
    '\n' h (by decide)]

/-- The twenty output file names, in write order. -/
def fileNames : List String :=
  ["ngo_projects.csv", "beneficiary_data.csv", "large_ngo_projects.csv",
   "beneficiary_data_missing.csv", "project_updates.csv", "health_data.csv",
   "messy_data.csv", "item_data.csv", "advanced_messy_data.csv",
   "transaction_data.csv", "large_country_data.csv",
   "ngo_projects_cleaned.csv", "beneficiary_records.csv",
   "aid_distribution.csv", "beneficiary_data_dedup.csv", "event_logs.csv",
   "partner_organizations.csv", "health_records.csv", "school_data.csv",
   "district_poverty.csv"]

/-- C7: under every draw the run performs exactly 21 effects: twenty file
writes, to the twenty distinct names, each starting with the comma-joined
header of its table's columns in defined order (no index column), followed
by exactly one success message printed last. -/
theorem run_effects (dr : Draws) :
    (generate_ngo_data dr).length = 21 ∧
    writeNames (generate_ngo_data dr) = fileNames ∧
    fileNames.Nodup ∧
    printedLines (generate_ngo_data dr) =
      ["All synthetic NGO datasets generated successfully."] ∧
    (generate_ngo_data dr).getLast? =
      some (.printMsg "All synthetic NGO datasets generated successfully.") ∧
    writeHeaders (generate_ngo_data dr) = [
      ("ngo_projects.csv", "ProjectID,Region,StartDate,EndDate,Budget"),
      ("beneficiary_data.csv", "BeneficiaryID,Age,Gender,Location,AssistanceType"),
      ("large_ngo_projects.csv", "ProjectID,Region,Status,Budget"),
      ("beneficiary_data_missing.csv", "BeneficiaryID,Age,Gender,Location,AssistanceType"),
      ("project_updates.csv", "UpdateID,ProjectID,Date,Status,Notes"),
      ("health_data.csv", "PatientID,Age,Weight,Diagnosis,Medication"),
      ("messy_data.csv", "ProjectID,Region,Status,Budget"),
      ("item_data.csv", "Item,Quantity,Price"),
      ("advanced_messy_data.csv", "ProjectCode,Description,StartDate,Beneficiaries"),
      ("transaction_data.csv", "TransactionID,Timestamp,Amount"),
      ("large_country_data.csv", "Country,EventDate,ReportDate"),
      ("ngo_projects_cleaned.csv", "ProjectID,Region,Budget,Status,StartDate"),
      ("beneficiary_records.csv", "BeneficiaryID,Age,Gender,Location,AssistanceReceived"),
      ("aid_distribution.csv", "Country,AidType,AmountUSD,Year"),
      ("beneficiary_data_dedup.csv", "BeneficiaryID,Age,Gender,AssistanceType,Location"),
      ("event_logs.csv", "LogID,Timestamp,EventType,UserID"),
      ("partner_organizations.csv", "OrgID,OrgName,ContactPerson,City"),
      ("health_records.csv", "PatientID,WeightKg,HeightCm,BloodPressureSystolic,BloodPressureDiastolic"),
      ("school_data.csv", "SchoolID,District,Enrollment,FundingPerStudent,TestScoreAverage"),
      ("district_poverty.csv", "District,PovertyRate")] := by
  have hs : firstLine (toCsv (df_large_sample dr)) =
      "ProjectID,Region,Status,Budget" := by
    have hh : headerLine (df_large_sample dr) =
        "ProjectID,Region,Status,Budget" := rfl
    rw [firstLine_toCsv (df_large_sample dr) (by rw [hh]; decide), hh]
  have hc : firstLine (toCsv (df_country dr)) =
      "Country,EventDate,ReportDate" := by
    have hh : headerLine (df_country dr) = "Country,EventDate,ReportDate" := rfl
    rw [firstLine_toCsv (df_country dr) (by rw [hh]; decide), hh]
  refine ⟨rfl, rfl, by decide, rfl, rfl, ?_⟩
  show [("ngo_projects.csv", firstLine (toCsv df_projects)),
    ("beneficiary_data.csv", firstLine (toCsv df_beneficiary_basic)),
    ("large_ngo_projects.csv", firstLine (toCsv (df_large_sample dr))),
    ("beneficiary_data_missing.csv", firstLine (toCsv df_missing)),
    ("project_updates.csv", firstLine (toCsv df_project_updates)),
    ("health_data.csv", firstLine (toCsv df_health)),
    ("messy_data.csv", firstLine (toCsv df_messy)),
    ("item_data.csv", firstLine (toCsv df_item)),
    ("advanced_messy_data.csv", firstLine (toCsv df_advanced_messy)),
    ("transaction_data.csv", firstLine (toCsv df_transaction)),
    ("large_country_data.csv", firstLine (toCsv (df_country dr))),
    ("ngo_projects_cleaned.csv", firstLine (toCsv df_projects_cleaned)),
    ("beneficiary_records.csv", firstLine (toCsv df_beneficiary_records)),
    ("aid_distribution.csv", firstLine (toCsv df_aid_distribution)),
    ("beneficiary_data_dedup.csv", firstLine (toCsv df_beneficiary_dedup)),
    ("event_logs.csv", firstLine (toCsv df_event_logs)),
    ("partner_organizations.csv", firstLine (toCsv df_partners)),
    ("health_records.csv", firstLine (toCsv df_health_records)),
    ("school_data.csv", firstLine (toCsv df_school)),
    ("district_poverty.csv", firstLine (toCsv df_poverty))] = _
  rw [hs, hc]
  decide

/-- Witness for C7: the all-zero run. -/
theorem run_effects_witness :
    (generate_ngo_data zeroDraws).length = 21 ∧
    writeNames (generate_ngo_data zeroDraws) = fileNames ∧
    fileNames.Nodup ∧
    printedLines (generate_ngo_data zeroDraws) =
      ["All synthetic NGO datasets generated successfully."] ∧
    (generate_ngo_data zeroDraws).getLast? =
      some (.printMsg "All synthetic NGO datasets generated successfully.") ∧
    writeHeaders (generate_ngo_data zeroDraws) = [
      ("ngo_projects.csv", "ProjectID,Region,StartDate,EndDate,Budget"),
      ("beneficiary_data.csv", "BeneficiaryID,Age,Gender,Location,AssistanceType"),
      ("large_ngo_projects.csv", "ProjectID,Region,Status,Budget"),
      ("beneficiary_data_missing.csv", "BeneficiaryID,Age,Gender,Location,AssistanceType"),
      ("project_updates.csv", "UpdateID,ProjectID,Date,Status,Notes"),
      ("health_data.csv", "PatientID,Age,Weight,Diagnosis,Medication"),
      ("messy_data.csv", "ProjectID,Region,Status,Budget"),
      ("item_data.csv", "Item,Quantity,Price"),
      ("advanced_messy_data.csv", "ProjectCode,Description,StartDate,Beneficiaries"),
      ("transaction_data.csv", "TransactionID,Timestamp,Amount"),
      ("large_country_data.csv", "Country,EventDate,ReportDate"),
      ("ngo_projects_cleaned.csv", "ProjectID,Region,Budget,Status,StartDate"),
      ("beneficiary_records.csv", "BeneficiaryID,Age,Gender,Location,AssistanceReceived"),
      ("aid_distribution.csv", "Country,AidType,AmountUSD,Year"),
      ("beneficiary_data_dedup.csv", "BeneficiaryID,Age,Gender,AssistanceType,Location"),
      ("event_logs.csv", "LogID,Timestamp,EventType,UserID"),
      ("partner_organizations.csv", "OrgID,OrgName,ContactPerson,City"),
      ("health_records.csv", "PatientID,WeightKg,HeightCm,BloodPressureSystolic,BloodPressureDiastolic"),
      ("school_data.csv", "SchoolID,District,Enrollment,FundingPerStudent,TestScoreAverage"),
      ("district_poverty.csv", "District,PovertyRate")] :=
  run_effects zeroDraws

/-- A write effect targeting one of the two random tables. -/
def isRandomFile : Effect → Bool
  | .toCsvFile n _ =>
      n == "large_ngo_projects.csv" || n == "large_country_data.csv"
  | .printMsg _ => false

/-- The effects of a run that do not involve the two random tables. -/
def deterministicEffects (dr : Draws) : List Effect :=
  (generate_ngo_data dr).filter (fun e => !isRandomFile e)

/-- The draw-independent effects: the 18 literal file writes and the
printed message. -/
def literalEffects : List Effect := [
  .toCsvFile "ngo_projects.csv" (toCsv df_projects),
  .toCsvFile "beneficiary_data.csv" (toCsv df_beneficiary_basic),
  .toCsvFile "beneficiary_data_missing.csv" (toCsv df_missing),
  .toCsvFile "project_updates.csv" (toCsv df_project_updates),
  .toCsvFile "health_data.csv" (toCsv df_health),
  .toCsvFile "messy_data.csv" (toCsv df_messy),
  .toCsvFile "item_data.csv" (toCsv df_item),
  .toCsvFile "advanced_messy_data.csv" (toCsv df_advanced_messy),
  .toCsvFile "transaction_data.csv" (toCsv df_transaction),
  .toCsvFile "ngo_projects_cleaned.csv" (toCsv df_projects_cleaned),
  .toCsvFile "beneficiary_records.csv" (toCsv df_beneficiary_records),
  .toCsvFile "aid_distribution.csv" (toCsv df_aid_distribution),
  .toCsvFile "beneficiary_data_dedup.csv" (toCsv df_beneficiary_dedup),
  .toCsvFile "event_logs.csv" (toCsv df_event_logs),
  .toCsvFile "partner_organizations.csv" (toCsv df_partners),
  .toCsvFile "health_records.csv" (toCsv df_health_records),
  .toCsvFile "school_data.csv" (toCsv df_school),
  .toCsvFile "district_poverty.csv" (toCsv df_poverty),
  .printMsg "All synthetic NGO datasets generated successfully."]

/-- Under every draw, the non-random effects are the same closed list. -/
theorem deterministicEffects_eq (dr : Draws) :
    deterministicEffects dr = literalEffects := rfl

/-- C8: any two runs produce identical effects outside the two random
tables — all 18 literal file writes (and the printed message) are
bit-identical — while the random tables keep their invariants under every
draw: 100,000 rows each, the country vocabulary, and the report-date
offset in `[1, 29]`. -/
theorem two_run_determinism (d1 d2 : Draws) :
    deterministicEffects d1 = deterministicEffects d2 ∧
    (deterministicEffects d1).length = 19 ∧
    (∀ dr : Draws,
      nrows (df_large_sample dr) = 100000 ∧ nrows (df_country dr) = 100000 ∧
      ∀ i, i < num_rows_country →
        (∃ v ∈ countries, getCell (df_country dr) "Country" i = some (.s v)) ∧
        (∃ e off, getCell (df_country dr) "EventDate" i = some (.d e) ∧
          getCell (df_country dr) "ReportDate" i = some (.d (e + off)) ∧
          1 ≤ off ∧ off ≤ 29)) := by
  refine ⟨(deterministicEffects_eq d1).trans (deterministicEffects_eq d2).symm,
    by rw [deterministicEffects_eq d1]; rfl, ?_⟩
  intro dr
  refine ⟨large_nrows dr, country_nrows dr, ?_⟩
  intro i h
  refine ⟨⟨npChoice countries "" dr.countryPick i,
    getD_mem _ _ _ (Nat.mod_lt _ (by decide)), country_cell dr i h⟩,
    npChoice date_range 0 dr.eventPick i, npRandint 1 30 dr.offsetPick i,
    event_cell dr i h, report_cell dr i h,
    (npRandint_1_30_bounds dr.offsetPick i).1,
    (npRandint_1_30_bounds dr.offsetPick i).2⟩

/-- Witness for C8: two all-zero runs. -/
theorem two_run_determinism_witness :
    deterministicEffects zeroDraws = deterministicEffects zeroDraws ∧
    (deterministicEffects zeroDraws).length = 19 ∧
    (∀ dr : Draws,
      nrows (df_large_sample dr) = 100000 ∧ nrows (df_country dr) = 100000 ∧
      ∀ i, i < num_rows_country →
        (∃ v ∈ countries, getCell (df_country dr) "Country" i = some (.s v)) ∧
        (∃ e off, getCell (df_country dr) "EventDate" i = some (.d e) ∧
          getCell (df_country dr) "ReportDate" i = some (.d (e + off)) ∧
          1 ≤ off ∧ off ≤ 29)) :=
  two_run_determinism zeroDraws zeroDraws

end NgoGen
